import Mathlib

/-!
Shallow embedding of the core wake/refresh scheduling and caching logic of the
`focus-display` firmware (`src/focus-display/main.py`, `src/focus-display/calendar_sync.py`,
`src/focus-display/config.py`).

Python `dict`s that always carry the same keys are embedded as Lean structures;
machine integers are `Int` (MicroPython integers are unbounded); the
`float('inf')` sentinel returned by `calculate_minutes_elapsed` is embedded as
the dedicated type `Minutes` with an `inf` constructor; fallible operations
return `Option` / a success flag, mirroring the `try/except` structure of the
source.  In-place mutation of a caller's dict (`save_to_rtc_memory`) is
embedded by returning the mutated record alongside the other results.
-/

set_option maxRecDepth 100000

namespace FocusDisplay

/-- RTC memory magic number used to detect a valid cache (`main.py` line 22,
`CACHE_MAGIC = 0xF0C5`). -/
def CACHE_MAGIC : Int := 0xF0C5

/-- A `(year, month, day, hour, minute)` timestamp, as stored in
`last_api_sync` / `last_ntp_sync` and produced by `rtc_time[:5]`. -/
abbrev SyncTime := Int × Int × Int × Int × Int

/-- The `(year, month, day, hour, minute, second, weekday)` tuple returned by
`get_rtc_time` (`main.py` lines 94-100). -/
structure RtcTime where
  year : Int
  month : Int
  day : Int
  hour : Int
  minute : Int
  second : Int
  weekday : Int
deriving DecidableEq, Repr

/-- The `rtc_time[:5]` slice used for cache timestamps. -/
def RtcTime.toSync (t : RtcTime) : SyncTime :=
  (t.year, t.month, t.day, t.hour, t.minute)

/-- One entry of the cached `events` list, as built by
`CalendarSync.get_todays_events` (`calendar_sync.py` lines 329-335): every
entry carries exactly the keys `summary`, `start_hour`, `start_min`,
`duration_min`, `is_past`. -/
structure CEvent where
  summary : String
  start_hour : Int
  start_min : Int
  duration_min : Int
  is_past : Bool
deriving DecidableEq, Repr

/-- The cache dict built in `do_api_refresh` (`main.py` lines 357-364) and
stored in RTC memory; `magic` is the extra key that `save_to_rtc_memory`
assigns (`main.py` line 43), absent until then. -/
structure CacheData where
  events : List CEvent
  minutes_until_next_original : Option Int
  next_title : Option String
  next_time_str : Option String
  last_api_sync : Option SyncTime
  last_ntp_sync : Option SyncTime
  magic : Option Int
deriving DecidableEq, Repr

/-! ### Serialized size model

`save_to_rtc_memory` branches on `len(json.dumps(data).encode('utf-8'))`.
The `json` codec is MicroPython library code, not part of this repository;
only the byte length of its output reaches the repository's branching.  The
functions below compute that byte length for the cache record (Python
`json.dumps` default separators `", "` and `": "`; `None` prints as `null`,
booleans as `true`/`false`, tuples as arrays; field contents are ASCII, so
character count equals UTF-8 byte count). -/

/-- Byte length of a JSON string literal `"s"` (ASCII contents). -/
def jsonStrLen (s : String) : Nat := s.length + 2

/-- Byte length of a JSON integer literal. -/
def jsonIntLen (i : Int) : Nat := (toString i).length

/-- Byte length of a JSON boolean literal (`true` / `false`). -/
def jsonBoolLen (b : Bool) : Nat := if b then 4 else 5

/-- Byte length of an optional JSON integer (`null` when absent). -/
def jsonOptIntLen : Option Int → Nat
  | none => 4
  | some i => jsonIntLen i

/-- Byte length of an optional JSON string (`null` when absent). -/
def jsonOptStrLen : Option String → Nat
  | none => 4
  | some s => jsonStrLen s

/-- Byte length of a JSON object key together with its `": "` separator and
quotes. -/
def jsonKeyLen (k : String) : Nat := k.length + 4

/-- Byte length of one serialized event dict (five keys, in the insertion
order of `get_todays_events`). -/
def jsonEventLen (e : CEvent) : Nat :=
  2 + 2 * 4
    + jsonKeyLen "summary" + jsonStrLen e.summary
    + jsonKeyLen "start_hour" + jsonIntLen e.start_hour
    + jsonKeyLen "start_min" + jsonIntLen e.start_min
    + jsonKeyLen "duration_min" + jsonIntLen e.duration_min
    + jsonKeyLen "is_past" + jsonBoolLen e.is_past

/-- Byte length of a JSON array whose elements serialize to the given sizes. -/
def jsonListLen (elems : List Nat) : Nat :=
  match elems with
  | [] => 2
  | es => 2 + es.sum + 2 * (es.length - 1)

/-- Byte length of an optional serialized 5-tuple timestamp (a JSON array of
five integers, `null` when absent). -/
def jsonSyncLen : Option SyncTime → Nat
  | none => 4
  | some (y, mo, d, h, mi) =>
      2 + 2 * 4 + jsonIntLen y + jsonIntLen mo + jsonIntLen d + jsonIntLen h + jsonIntLen mi

/-- Byte length of `json.dumps(data).encode('utf-8')` for the cache record
(seven keys, in the insertion order of `do_api_refresh` plus the trailing
`magic` key). -/
def serializedLen (d : CacheData) : Nat :=
  2 + 2 * 6
    + jsonKeyLen "events" + jsonListLen (d.events.map jsonEventLen)
    + jsonKeyLen "minutes_until_next_original" + jsonOptIntLen d.minutes_until_next_original
    + jsonKeyLen "next_title" + jsonOptStrLen d.next_title
    + jsonKeyLen "next_time_str" + jsonOptStrLen d.next_time_str
    + jsonKeyLen "last_api_sync" + jsonSyncLen d.last_api_sync
    + jsonKeyLen "last_ntp_sync" + jsonSyncLen d.last_ntp_sync
    + jsonKeyLen "magic" + jsonOptIntLen d.magic

/-! ### RTC memory store -/

/-- The RTC memory store.  Since `json.loads` inverts `json.dumps`, the store
is modelled as holding the decoded record rather than raw bytes. -/
structure RtcStore where
  mem : Option CacheData
deriving DecidableEq, Repr

/-- Modelled from the spec: the MicroPython `RTC().memory(bytes)` write
primitive is platform code outside this repository.  Per the spec (§4.2,
§7 CacheOverflow) the store is a fixed-capacity durable record of ~8KB
(8000 bytes, the bound `save_to_rtc_memory` itself checks) and an
over-capacity write fails with an exception, leaving the prior contents in
place; `none` signals that exception. -/
def rtcMemoryWrite (st : RtcStore) (d : CacheData) : Option RtcStore :=
  if serializedLen d > 8000 then none else some ⟨some d⟩

/-- `save_to_rtc_memory` (`main.py` lines 39-62).  The Python function
mutates the caller's dict (adding `magic`, possibly truncating `events`
in place) and returns `True`/`False`; the embedding returns
`(success, mutated data, new store)`.  An exception from the oversized
`rtc.memory` write is caught by the `except` clause, which returns `False`
with the store untouched. -/
def save_to_rtc_memory (data : CacheData) (st : RtcStore) : Bool × CacheData × RtcStore :=
  let data1 := { data with magic := some CACHE_MAGIC }
  let data2 :=
    if serializedLen data1 > 8000 ∧ data1.events.length > 3 then
      { data1 with events := data1.events.take 3 }
    else data1
  match rtcMemoryWrite st data2 with
  | some st2 => (true, data2, st2)
  | none => (false, data2, st)

/-- `load_from_rtc_memory` (`main.py` lines 65-87): empty store or wrong
magic number yields `none` ("absent"). -/
def load_from_rtc_memory (st : RtcStore) : Option CacheData :=
  match st.mem with
  | none => none
  | some d => if d.magic = some CACHE_MAGIC then some d else none

/-! ### Configuration (`config.py`) -/

/-- The configuration constants of `config.py` that the core logic reads.
Intervals are in seconds, hours are local hours. -/
structure Config where
  DEV_MODE : Bool
  TIME_UPDATE_INTERVAL : Int
  TIME_UPDATE_INTERVAL_NIGHT : Int
  API_REFRESH_INTERVAL : Int
  WORK_HOURS_START : Int
  WORK_HOURS_END : Int
  EVENING_MODE_START_HOUR : Int
deriving DecidableEq, Repr

/-- `config.py` with `DEV_MODE = True` (the committed value). -/
def devConfig : Config :=
  { DEV_MODE := true
    TIME_UPDATE_INTERVAL := 60
    TIME_UPDATE_INTERVAL_NIGHT := 60
    API_REFRESH_INTERVAL := 2 * 60
    WORK_HOURS_START := 8
    WORK_HOURS_END := 20
    EVENING_MODE_START_HOUR := 19 }

/-- `config.py` with `DEV_MODE = False` (the production branch of the
`if DEV_MODE` block). -/
def prodConfig : Config :=
  { DEV_MODE := false
    TIME_UPDATE_INTERVAL := 60
    TIME_UPDATE_INTERVAL_NIGHT := 60 * 60
    API_REFRESH_INTERVAL := 60 * 60
    WORK_HOURS_START := 8
    WORK_HOURS_END := 20
    EVENING_MODE_START_HOUR := 19 }

/-! ### Time functions (`main.py` lines 94-225) -/

/-- Result of `calculate_minutes_elapsed`: a Python `int`, or the
`float('inf')` sentinel. -/
inductive Minutes where
  | fin (n : Int)
  | inf
deriving DecidableEq, Repr

/-- The Python comparison `minutes_elapsed >= k` (with `k` an integer):
`float('inf') >= k` is always true. -/
def Minutes.geI : Minutes → Int → Bool
  | .fin n, k => decide (k ≤ n)
  | .inf, _ => true

/-- `calculate_minutes_elapsed` (`main.py` lines 103-117): same-day
minute-of-day difference; `None` last sync or a calendar-day change gives
infinity. -/
def calculate_minutes_elapsed (last_sync_time : Option SyncTime) (current_time : SyncTime) :
    Minutes :=
  match last_sync_time with
  | none => .inf
  | some (ly, lm, ld, lh, lmin) =>
      let (cy, cm, cd, ch, cmin) := current_time
      if (cy, cm, cd) = (ly, lm, ld) then
        .fin ((ch * 60 + cmin) - (lh * 60 + lmin))
      else
        .inf

/-- `is_dst_europe` (`main.py` lines 156-165). -/
def is_dst_europe (month day weekday : Int) : Bool :=
  if month < 3 ∨ month > 10 then false
  else if month > 3 ∧ month < 10 then true
  else if month = 3 then decide (day ≥ 31 - 6 + (weekday + 1) % 7)
  else decide (day < 31 - 6 + (weekday + 1) % 7)

/-- `is_dst_us` (`main.py` lines 168-174). -/
def is_dst_us (month day weekday : Int) : Bool :=
  if month < 3 ∨ month > 11 then false
  else if month > 3 ∧ month < 11 then true
  else decide ((month = 3 ∧ day > 14) ∨ (month = 11 ∧ day < 8))

/-- The `(hour, minute)` pairs per city returned by
`get_world_times_from_rtc`. -/
structure WorldTimes where
  barcelona : Int × Int
  new_york : Int × Int
  san_francisco : Int × Int
deriving DecidableEq, Repr

/-- `get_world_times_from_rtc` (`main.py` lines 177-201); Python `%` and
Lean `Int` `%` agree on the positive modulus 24. -/
def get_world_times_from_rtc (t : RtcTime) : WorldTimes :=
  let europe_dst := is_dst_europe t.month t.day t.weekday
  let us_dst := is_dst_us t.month t.day t.weekday
  let bcn_offset : Int := if europe_dst then 2 else 1
  let ny_offset : Int := if us_dst then -4 else -5
  let sf_offset : Int := if us_dst then -7 else -8
  { barcelona := ((t.hour + bcn_offset) % 24, t.minute)
    new_york := ((t.hour + ny_offset) % 24, t.minute)
    san_francisco := ((t.hour + sf_offset) % 24, t.minute) }

/-- `check_evening_mode` (`main.py` lines 204-208). -/
def check_evening_mode (cfg : Config) (local_hour : Int) (minutes_until_next : Option Int) :
    Bool :=
  let is_evening := decide (local_hour ≥ cfg.EVENING_MODE_START_HOUR)
  let no_meetings_today :=
    match minutes_until_next with
    | none => true
    | some m => decide (m > 12 * 60)
  is_evening && no_meetings_today

/-- `is_weekend` (`main.py` lines 211-213): weekday 0=Monday. -/
def is_weekend (weekday : Int) : Bool := decide (weekday ≥ 5)

/-- `is_work_hours` (`main.py` lines 216-225). -/
def is_work_hours (cfg : Config) (local_hour weekday : Int) : Bool :=
  if cfg.DEV_MODE then true
  else if is_weekend weekday then false
  else decide (cfg.WORK_HOURS_START ≤ local_hour ∧ local_hour < cfg.WORK_HOURS_END)

/-! ### Wake cause detection (`main.py` lines 232-256) -/

/-- The two values of `machine.reset_cause()` the code distinguishes. -/
inductive ResetCause where
  | deepsleepReset
  | hardReset
deriving DecidableEq, Repr

/-- The values of `machine.wake_reason()` the code distinguishes. -/
inductive WakeReason where
  | pinWake
  | timerWake
  | unknown
deriving DecidableEq, Repr

/-- The classification `get_wake_cause` returns. -/
inductive WakeCause where
  | button
  | timer
  | reset
deriving DecidableEq, Repr

/-- `get_wake_cause` (`main.py` lines 232-256). -/
def get_wake_cause (reset_cause : ResetCause) (wake_reason : WakeReason) : WakeCause :=
  match reset_cause with
  | .deepsleepReset =>
      match wake_reason with
      | .pinWake => .button
      | _ => .timer
  | .hardReset => .reset

/-! ### Sleep functions (`main.py` lines 263-300) -/

/-- `calculate_seconds_until_next_minute` (`main.py` lines 263-271), as a
function of the seconds subfield of the RTC clock read it performs. -/
def calculate_seconds_until_next_minute (current_seconds : Int) : Int :=
  let seconds_until_next := 60 - current_seconds
  if seconds_until_next = 60 then 0 else seconds_until_next

/-- The sleep duration `sleep_until_refresh` (`main.py` lines 274-300)
actually uses: in both dev (light sleep) and prod (deep sleep) mode the
device sleeps `actual_sleep` seconds; `current_seconds` is the seconds
subfield of the clock at sleep time. -/
def sleep_duration_used (seconds : Int) (sync_to_minute : Bool) (current_seconds : Int) :
    Int :=
  if sync_to_minute then
    let seconds_until_minute := calculate_seconds_until_next_minute current_seconds
    if 0 < seconds_until_minute ∧ seconds_until_minute < seconds then seconds_until_minute
    else seconds
  else seconds

/-! ### Calendar computations (`calendar_sync.py` lines 248-337)

`get_upcoming_events` builds, for every event it returns, a dict that always
carries the keys `summary`, `start_time`, `end_time`, `duration_min`,
`meeting_type`, `location` (lines 158-166); `RawEvent` embeds that dict. -/

/-- One raw event as returned by `CalendarSync.get_upcoming_events`. -/
structure RawEvent where
  summary : String
  start_time : SyncTime
  end_time : SyncTime
  duration_min : Int
  meeting_type : Option String
  location : String
deriving DecidableEq, Repr

/-- Zero-padded two-digit minute, the Python `f"{m:02d}"` for `0 ≤ m`. -/
def pad2 (m : Int) : String :=
  if 0 ≤ m ∧ m < 10 then "0" ++ toString m else toString m

/-- The `f"{h12}:{evt_minute:02d} {period}"` formatting of
`get_next_meeting`, with `h12 = evt_hour % 12 or 12`. -/
def fmtMeetingTime (evt_hour evt_minute : Int) : String :=
  let period := if evt_hour < 12 then "AM" else "PM"
  let h12 := if evt_hour % 12 = 0 then (12 : Int) else evt_hour % 12
  toString h12 ++ ":" ++ pad2 evt_minute ++ " " ++ period

/-- Python lexicographic comparison
`(evt_year, evt_month, evt_day) > (year, month, day)`. -/
def tripleGt (a b : Int × Int × Int) : Bool :=
  decide (a.1 > b.1 ∨ (a.1 = b.1 ∧ (a.2.1 > b.2.1 ∨ (a.2.1 = b.2.1 ∧ a.2.2 > b.2.2))))

/-- The event loop of `CalendarSync.get_next_meeting`
(`calendar_sync.py` lines 265-304), restricted to the first three
components of the result tuple `(minutes_until, title, formatted_time, ...)`
— the only ones `main` consumes (`main.py` line 345); the remaining two
feed rendering only. -/
def nextMeetingScan (year month day current_minutes : Int) :
    List RawEvent → Option Int × Option String × Option String
  | [] => (none, none, none)
  | event :: rest =>
      let (evt_year, evt_month, evt_day, evt_hour, evt_minute) := event.start_time
      let (_, _, _, end_hour, end_minute) := event.end_time
      if evt_year = year ∧ evt_month = month ∧ evt_day = day then
        let evt_start_minutes := evt_hour * 60 + evt_minute
        let evt_end_minutes := end_hour * 60 + end_minute
        if evt_start_minutes ≤ current_minutes ∧ current_minutes < evt_end_minutes then
          (some (evt_start_minutes - current_minutes), some event.summary,
            some (fmtMeetingTime evt_hour evt_minute))
        else if evt_start_minutes > current_minutes then
          (some (evt_start_minutes - current_minutes), some event.summary,
            some (fmtMeetingTime evt_hour evt_minute))
        else nextMeetingScan year month day current_minutes rest
      else if tripleGt (evt_year, evt_month, evt_day) (year, month, day) then
        (some ((24 * 60 - current_minutes) + (evt_hour * 60 + evt_minute)),
          some event.summary,
          some ("Tomorrow " ++ fmtMeetingTime evt_hour evt_minute))
      else nextMeetingScan year month day current_minutes rest

/-- Wrapper assembling `get_next_meeting`'s locals and running its event
scan (first matching event wins, per the early `return`s of the source). -/
def get_next_meeting (events : List RawEvent) (current_time : SyncTime) :
    Option Int × Option String × Option String :=
  let (year, month, day, hour, minute) := current_time
  nextMeetingScan year month day (hour * 60 + minute) events

/-- `CalendarSync.get_todays_events` (`calendar_sync.py` lines 306-337):
filters to today's events, annotating each with
`is_past = evt_start_mins + duration_min < current_minutes`.  (The raw
event dicts always carry `duration_min`, so the `.get` defaults 0 and 30
of the source never apply.) -/
def get_todays_events (events : List RawEvent) (current_time : SyncTime) : List CEvent :=
  let (year, month, day, hour, minute) := current_time
  let current_minutes := hour * 60 + minute
  events.filterMap fun event =>
    let (evt_year, evt_month, evt_day, evt_hour, evt_minute) := event.start_time
    if evt_year = year ∧ evt_month = month ∧ evt_day = day then
      let evt_start_mins := evt_hour * 60 + evt_minute
      some
        { summary := event.summary
          start_hour := evt_hour
          start_min := evt_minute
          duration_min := event.duration_min
          is_past := decide (evt_start_mins + event.duration_min < current_minutes) }
    else none

/-! ### Derived-state updates (`main.py` lines 372-415) -/

/-- `calculate_current_minutes_until_next` (`main.py` lines 372-385):
`max(0, original - minutes_elapsed)`.  When `minutes_elapsed` is the
`float('inf')` sentinel, Python's `max(0, original - inf)` is `0`. -/
def calculate_current_minutes_until_next (cache_data : CacheData)
    (minutes_elapsed : Minutes) : Option Int :=
  match cache_data.minutes_until_next_original with
  | none => none
  | some original =>
      match minutes_elapsed with
      | .fin n => some (max 0 (original - n))
      | .inf => some 0

/-- The `is_past` re-annotation loop of `do_time_only_update`
(`main.py` lines 406-413): an event becomes past when the current
minute-of-day has reached `start + duration`.  (Cached events always carry
their keys, so the `.get` defaults never apply.) -/
def updateEventsPast (events : List CEvent) (current_total_minutes : Int) : List CEvent :=
  events.map fun evt =>
    let evt_start_min := evt.start_hour * 60 + evt.start_min
    let evt_end_min := evt_start_min + evt.duration_min
    { evt with is_past := decide (current_total_minutes ≥ evt_end_min) }

/-- `do_time_only_update` (`main.py` lines 388-415).  The Python function
mutates `cache_data['events']` in place and returns the fresh
`minutes_until_next`; the embedding returns the pair. -/
def do_time_only_update (cache_data : CacheData) (minutes_elapsed : Minutes)
    (current_hour current_minute : Int) : Option Int × CacheData :=
  let minutes_until_next := calculate_current_minutes_until_next cache_data minutes_elapsed
  let current_total_minutes := current_hour * 60 + current_minute
  (minutes_until_next,
    { cache_data with events := updateEventsPast cache_data.events current_total_minutes })

/-! ### Refresh decision (`main.py` lines 440-476) -/

/-- The prod-mode `force_api_refresh` flag of `main`
(`main.py` line 442): button press or fresh boot forces a refresh. -/
def wake_forces_refresh (wake_cause : WakeCause) : Bool :=
  wake_cause == WakeCause.button || wake_cause == WakeCause.reset

/-- The two-state refresh decision of the spec's §4.3 engine. -/
inductive RefreshDecision where
  | fullRefresh
  | timeOnly
deriving DecidableEq, Repr

/-- The `need_api_refresh` computation of `main` (`main.py` lines 459-476):
absent cache always refreshes; otherwise a forced refresh skips the
staleness check, else the elapsed minutes since `last_api_sync` are
compared against `config.API_REFRESH_INTERVAL // 60`. -/
def need_api_refresh_calc (cfg : Config) (force_api_refresh : Bool)
    (cache_data : Option CacheData) (rtc_time : SyncTime) : Bool :=
  match cache_data with
  | none => true
  | some c =>
      force_api_refresh ||
        (calculate_minutes_elapsed c.last_api_sync rtc_time).geI
          (Int.fdiv cfg.API_REFRESH_INTERVAL 60)

/-- The refresh decision a wake cycle makes, as the spec's enum. -/
def refresh_decision (cfg : Config) (wake_cause : WakeCause)
    (cache_data : Option CacheData) (rtc_time : SyncTime) : RefreshDecision :=
  if need_api_refresh_calc cfg (wake_forces_refresh wake_cause) cache_data rtc_time then
    .fullRefresh
  else .timeOnly

/-! ### A wake cycle (`main.py` lines 307-369 and 418-543)

The effects of the platform during one wake cycle — hardware wake codes,
WiFi association, the calendar HTTP fetch, and the RTC clock reads — are
collected in an `Env` record; `main` is then a pure function of the
configuration, the environment and the RTC memory store. -/

/-- External effects observed during one wake cycle.  `fetchResult` is what
`calendar.get_upcoming_events` returns (`none` = fetch failure);
`rtcTimeAfterNtp` is the `get_rtc_time()` re-read after the NTP sync attempt
(`main.py` line 325; equal to the initial read when NTP fails);
`secondsAtSleep` is the seconds subfield of the clock when
`calculate_seconds_until_next_minute` re-reads it. -/
structure Env where
  resetCause : ResetCause
  wakeReason : WakeReason
  wifiOk : Bool
  fetchResult : Option (List RawEvent)
  rtcTime : RtcTime
  rtcTimeAfterNtp : RtcTime
  utcTime : SyncTime
  secondsAtSleep : Int
deriving DecidableEq, Repr

/-- `do_api_refresh` (`main.py` lines 307-369): WiFi failure or a failed
calendar fetch returns failure (`none`) before any cache write; otherwise
the new cache record is built, saved (with its in-place mutations), and
returned.  The Python `(success, cache_data)` pair is embedded as
`Option CacheData`, with the resulting store alongside. -/
def do_api_refresh (env : Env) (st : RtcStore) : Option CacheData × RtcStore :=
  if !env.wifiOk then (none, st)
  else
    match env.fetchResult with
    | none => (none, st)
    | some events =>
        let rtc_time := env.rtcTimeAfterNtp
        let (minutes_until_next, next_title, next_time_str) :=
          get_next_meeting events env.utcTime
        let todays_events := get_todays_events events env.utcTime
        let cache_data : CacheData :=
          { events := todays_events
            minutes_until_next_original := minutes_until_next
            next_title := next_title
            next_time_str := next_time_str
            last_api_sync := some rtc_time.toSync
            last_ntp_sync := some rtc_time.toSync
            magic := none }
        let (_, cache_data2, st2) := save_to_rtc_memory cache_data st
        (some cache_data2, st2)

/-- What a wake cycle paints on the panel: either
`display.show_error("Calendar sync failed")` (`main.py` line 484) or the
full `display.render(...)` call (`main.py` lines 524-534), with the
arguments `main` passes. -/
inductive Render where
  | errorScreen (message : String)
  | screen (minutes_until_next : Option Int) (next_title : Option String)
      (next_time_str : Option String) (todays_events : List CEvent)
      (is_evening : Bool) (force_full : Bool) (current_hour current_minute : Int)
deriving DecidableEq, Repr

/-- Observable outcome of one wake cycle: what was rendered, how many
seconds the device then sleeps, and the final RTC memory store. -/
structure MainResult where
  render : Render
  sleepSeconds : Int
  store : RtcStore
deriving DecidableEq, Repr

/-- The tail of `main` after the update step (`main.py` lines 503-543):
extract display data from the (possibly updated) cache, compute evening
mode, pick the refresh interval from the work-hours flag, render, and
sleep (minute-aligned during work hours). -/
def finishCycle (cfg : Config) (env : Env) (rtc_time : RtcTime) (cache_data : CacheData)
    (minutes_until_next : Option Int) (need_api_refresh : Bool) (st : RtcStore) :
    MainResult :=
  let times := get_world_times_from_rtc rtc_time
  let local_hour := times.barcelona.1
  let local_minute := times.barcelona.2
  let weekday := rtc_time.weekday
  let is_evening := check_evening_mode cfg local_hour minutes_until_next
  let in_work_hours := is_work_hours cfg local_hour weekday
  let refresh_interval :=
    if in_work_hours then cfg.TIME_UPDATE_INTERVAL else cfg.TIME_UPDATE_INTERVAL_NIGHT
  { render := .screen minutes_until_next cache_data.next_title cache_data.next_time_str
      cache_data.events is_evening need_api_refresh local_hour local_minute
    sleepSeconds := sleep_duration_used refresh_interval in_work_hours env.secondsAtSleep
    store := st }

/-- `main` in prod mode (`force_first_boot = None`, `main.py` lines
418-543), as a pure function of configuration, environment and store.
The `else` branch of the final `if need_api_refresh` can only run with a
present cache (an absent cache forces `need_api_refresh`), so the
unreachable `none` case mirrors the error branch. -/
def main (cfg : Config) (env : Env) (st : RtcStore) : MainResult :=
  let wake_cause := get_wake_cause env.resetCause env.wakeReason
  let force_api_refresh := wake_forces_refresh wake_cause
  let rtc_time := env.rtcTime
  let times := get_world_times_from_rtc rtc_time
  let local_hour := times.barcelona.1
  let local_minute := times.barcelona.2
  let cache_data := load_from_rtc_memory st
  let minutes_elapsed : Minutes :=
    match cache_data with
    | some c =>
        if force_api_refresh then .fin 0
        else calculate_minutes_elapsed c.last_api_sync rtc_time.toSync
    | none => .fin 0
  let need_api_refresh := need_api_refresh_calc cfg force_api_refresh cache_data rtc_time.toSync
  if need_api_refresh then
    match do_api_refresh env st, cache_data with
    | (none, _), none =>
        { render := .errorScreen "Calendar sync failed"
          sleepSeconds := sleep_duration_used 60 false env.secondsAtSleep
          store := st }
    | (none, _), some c =>
        let (minutes_until_next, c2) :=
          do_time_only_update c minutes_elapsed local_hour local_minute
        finishCycle cfg env rtc_time c2 minutes_until_next true st
    | (some new_cache, st2), _ =>
        finishCycle cfg env env.rtcTimeAfterNtp new_cache
          new_cache.minutes_until_next_original true st2
  else
    match cache_data with
    | some c =>
        let (minutes_until_next, c2) :=
          do_time_only_update c minutes_elapsed local_hour local_minute
        finishCycle cfg env rtc_time c2 minutes_until_next false st
    | none =>
        { render := .errorScreen "Calendar sync failed"
          sleepSeconds := sleep_duration_used 60 false env.secondsAtSleep
          store := st }

/-! ### Spec-side definitions and sample data for the theorems -/

/-- The four-case refresh rule of spec §4.3, written from the spec's words:
absent cache, then wake cause, then staleness, else time-only. -/
def specFourCaseDecision (wake_cause : WakeCause) (cache : Option CacheData)
    (now : SyncTime) (interval_minutes : Int) : RefreshDecision :=
  match cache with
  | none => .fullRefresh
  | some c =>
      if wake_cause = .button ∨ wake_cause = .reset then .fullRefresh
      else if (calculate_minutes_elapsed c.last_api_sync now).geI interval_minutes then
        .fullRefresh
      else .timeOnly

/-- A small valid cache record with the given countdown and sync timestamp,
used to instantiate scenarios. -/
def sampleCache (o : Option Int) (ls : Option SyncTime) : CacheData :=
  { events := []
    minutes_until_next_original := o
    next_title := none
    next_time_str := none
    last_api_sync := ls
    last_ntp_sync := ls
    magic := some CACHE_MAGIC }

/-! ### Claim theorems -/

/-- C1: the refresh decision computed each wake cycle follows exactly the
spec's four-case rule (cache absent → FullRefresh; Button/Reset →
FullRefresh; elapsed ≥ configured interval in minutes → FullRefresh; else
TimeOnly); in particular a present cache, wake cause Timer, elapsed 5 min
and interval 15 min decide TimeOnly. -/
theorem refresh_decision_matches_spec_rule :
    (∀ (cfg : Config) (wake_cause : WakeCause) (cache : Option CacheData) (now : SyncTime),
      refresh_decision cfg wake_cause cache now =
        specFourCaseDecision wake_cause cache now (Int.fdiv cfg.API_REFRESH_INTERVAL 60))
    ∧ refresh_decision { devConfig with API_REFRESH_INTERVAL := 15 * 60 } .timer
        (some (sampleCache (some 40) (some (2026, 1, 5, 10, 0)))) (2026, 1, 5, 10, 5) =
        .timeOnly := by
  constructor
  · intro cfg wake_cause cache now
    cases cache with
    | none => rfl
    | some c =>
        cases wake_cause <;>
          cases hgeI : (calculate_minutes_elapsed c.last_api_sync now).geI
            (Int.fdiv cfg.API_REFRESH_INTERVAL 60) <;>
            simp [refresh_decision, specFourCaseDecision, need_api_refresh_calc,
              wake_forces_refresh, hgeI]
  · decide

/-- C2: the time-only countdown is `max(0, original − elapsed)` for every
cache and every elapsed value, and `None` propagates; in particular
original 40 with elapsed 5, 0, 40 and 140 yields 35, 40, 0 and 0. -/
theorem current_countdown_formula :
    (∀ (c : CacheData) (n : Int),
      calculate_current_minutes_until_next c (.fin n) =
        c.minutes_until_next_original.map fun original => max 0 (original - n))
    ∧ calculate_current_minutes_until_next (sampleCache (some 40) none) (.fin 5) = some 35
    ∧ calculate_current_minutes_until_next (sampleCache (some 40) none) (.fin 0) = some 40
    ∧ calculate_current_minutes_until_next (sampleCache (some 40) none) (.fin 40) = some 0
    ∧ calculate_current_minutes_until_next (sampleCache (some 40) none) (.fin 140) = some 0
    ∧ ∀ n : Int, calculate_current_minutes_until_next (sampleCache none none) (.fin n) =
        none := by
  refine ⟨fun c n => ?_, by decide, by decide, by decide, by decide, fun n => rfl⟩
  cases h : c.minutes_until_next_original <;>
    simp [calculate_current_minutes_until_next, h]

/-- C3: a last-sync timestamp on a different calendar day (or an absent
one) makes the elapsed-minutes computation return infinity, and infinity
always drives the decision to FullRefresh; in particular last sync 23:58
and current time 00:02 of the next day. -/
theorem day_change_forces_full_refresh
    (ly lm ld lh lmin cy cm cd ch cmin : Int) (cfg : Config) (wake_cause : WakeCause)
    (c : CacheData) (hday : (cy, cm, cd) ≠ (ly, lm, ld)) :
    calculate_minutes_elapsed (some (ly, lm, ld, lh, lmin)) (cy, cm, cd, ch, cmin) = .inf
    ∧ (∀ now : SyncTime, calculate_minutes_elapsed none now = .inf)
    ∧ (c.last_api_sync = some (ly, lm, ld, lh, lmin) →
        refresh_decision cfg wake_cause (some c) (cy, cm, cd, ch, cmin) = .fullRefresh)
    ∧ calculate_minutes_elapsed (some (2026, 3, 9, 23, 58)) (2026, 3, 10, 0, 2) = .inf
    ∧ refresh_decision devConfig .timer
        (some (sampleCache (some 40) (some (2026, 3, 9, 23, 58)))) (2026, 3, 10, 0, 2) =
        .fullRefresh := by
  have helapsed :
      calculate_minutes_elapsed (some (ly, lm, ld, lh, lmin)) (cy, cm, cd, ch, cmin) =
        .inf := by
    simp [calculate_minutes_elapsed, hday]
  refine ⟨helapsed, fun now => rfl, fun hsync => ?_, by decide, by decide⟩
  simp [refresh_decision, need_api_refresh_calc, hsync, helapsed, Minutes.geI]

/-- Closed witness for `day_change_forces_full_refresh` at the spec's
boundary instance (last sync 23:58, now 00:02 next day). -/
theorem day_change_forces_full_refresh_witness :
    calculate_minutes_elapsed (some (2026, 3, 9, 23, 58)) (2026, 3, 10, 0, 2) = .inf
    ∧ refresh_decision devConfig .timer
        (some (sampleCache (some 40) (some (2026, 3, 9, 23, 58)))) (2026, 3, 10, 0, 2) =
        .fullRefresh := by
  have h := day_change_forces_full_refresh 2026 3 9 23 58 2026 3 10 0 2 devConfig .timer
    (sampleCache (some 40) (some (2026, 3, 9, 23, 58))) (by decide)
  exact ⟨h.2.2.2.1, h.2.2.2.2⟩

/-- The state exactly as `save_to_rtc_memory` first mutates it: the caller's
record with the `magic` key assigned. -/
def withMagic (d : CacheData) : CacheData := { d with magic := some CACHE_MAGIC }

/-- The state after `save_to_rtc_memory`'s overflow truncation: `magic`
assigned and the events list cut to its first three entries. -/
def truncMagic (d : CacheData) : CacheData :=
  { d with magic := some CACHE_MAGIC, events := d.events.take 3 }

/-- A string of `n` ASCII letters, for building oversized cache states. -/
def bigA (n : Nat) : String := String.mk (List.replicate n 'a')

/-- Length of `bigA n`, proved symbolically (the string is never evaluated). -/
theorem bigA_length (n : Nat) : (bigA n).length = n := by
  show (List.replicate n 'a').length = n
  simp

/-- Unfolding lemma for `save_to_rtc_memory`, phrased through `withMagic`
and `truncMagic` (definitionally equal to the in-place mutations the source
performs). -/
theorem save_unfold (d : CacheData) (st : RtcStore) :
    save_to_rtc_memory d st =
      (match rtcMemoryWrite st
          (if serializedLen (withMagic d) > 8000 ∧ d.events.length > 3
            then truncMagic d else withMagic d) with
        | some st2 =>
            (true,
              if serializedLen (withMagic d) > 8000 ∧ d.events.length > 3
                then truncMagic d else withMagic d, st2)
        | none =>
            (false,
              if serializedLen (withMagic d) > 8000 ∧ d.events.length > 3
                then truncMagic d else withMagic d, st)) := rfl

/-- Scenario lemma for `save_to_rtc_memory`: the serialized state fits, so it
is written untruncated. -/
theorem save_of_fits (d : CacheData) (st : RtcStore)
    (h1 : serializedLen (withMagic d) ≤ 8000) :
    save_to_rtc_memory d st = (true, withMagic d, ⟨some (withMagic d)⟩) := by
  have hc : ¬(serializedLen (withMagic d) > 8000 ∧ d.events.length > 3) := by
    intro hc; omega
  rw [save_unfold]
  simp only [if_neg hc, rtcMemoryWrite,
    if_neg (by omega : ¬serializedLen (withMagic d) > 8000)]

/-- Scenario lemma for `save_to_rtc_memory`: oversized with more than three
events, and the truncated state fits, so the truncated state is written. -/
theorem save_of_trunc_fits (d : CacheData) (st : RtcStore)
    (h1 : 8000 < serializedLen (withMagic d)) (h2 : 3 < d.events.length)
    (h3 : serializedLen (truncMagic d) ≤ 8000) :
    save_to_rtc_memory d st = (true, truncMagic d, ⟨some (truncMagic d)⟩) := by
  have hc : serializedLen (withMagic d) > 8000 ∧ d.events.length > 3 := ⟨h1, h2⟩
  rw [save_unfold]
  simp only [if_pos hc, rtcMemoryWrite,
    if_neg (by omega : ¬serializedLen (truncMagic d) > 8000)]

/-- Scenario lemma for `save_to_rtc_memory`: oversized with more than three
events, and still oversized after truncation, so the write is abandoned. -/
theorem save_of_trunc_oversized (d : CacheData) (st : RtcStore)
    (h1 : 8000 < serializedLen (withMagic d)) (h2 : 3 < d.events.length)
    (h3 : 8000 < serializedLen (truncMagic d)) :
    save_to_rtc_memory d st = (false, truncMagic d, st) := by
  have hc : serializedLen (withMagic d) > 8000 ∧ d.events.length > 3 := ⟨h1, h2⟩
  rw [save_unfold]
  simp only [if_pos hc, rtcMemoryWrite,
    if_pos (by omega : serializedLen (truncMagic d) > 8000)]

/-- Scenario lemma for `save_to_rtc_memory`: oversized but with at most
three events, so no truncation is possible and the write is abandoned. -/
theorem save_of_oversized_short (d : CacheData) (st : RtcStore)
    (h1 : 8000 < serializedLen (withMagic d)) (h2 : d.events.length ≤ 3) :
    save_to_rtc_memory d st = (false, withMagic d, st) := by
  have hc : ¬(serializedLen (withMagic d) > 8000 ∧ d.events.length > 3) := by
    intro hc; omega
  rw [save_unfold]
  simp only [if_neg hc, rtcMemoryWrite,
    if_pos (by omega : serializedLen (withMagic d) > 8000)]

/-- An oversized cache state whose single event is so large that even the
(here vacuous) truncation to three events leaves it beyond the 8000-byte
capacity. -/
def oversizedCache : CacheData :=
  { events := [{ summary := bigA 9000, start_hour := 14, start_min := 0,
                 duration_min := 30, is_past := false }]
    minutes_until_next_original := none
    next_title := none
    next_time_str := none
    last_api_sync := some (2026, 1, 5, 10, 0)
    last_ntp_sync := some (2026, 1, 5, 10, 0)
    magic := none }

/-- Helper: when the events list already has at most three entries, the
truncated state coincides with the magic-tagged state. -/
theorem truncMagic_eq_withMagic_of_short {d : CacheData} (h : d.events.length ≤ 3) :
    truncMagic d = withMagic d := by
  simp [truncMagic, withMagic, List.take_of_length_le h]

/-- The single-event oversized state really is oversized (its lone summary
alone is 9000 bytes), proved symbolically via `bigA_length`. -/
theorem oversized_gt : 8000 < serializedLen (withMagic oversizedCache) := by
  simp only [withMagic, oversizedCache, serializedLen, jsonKeyLen, jsonStrLen,
    jsonOptIntLen, jsonOptStrLen, jsonSyncLen, jsonListLen, jsonEventLen, jsonBoolLen,
    jsonIntLen, List.map, bigA_length]
  decide

/-- An oversized cache state with four large events: the save path truncates
its event list to the first three entries. -/
def fourEventCache : CacheData :=
  { events :=
      [{ summary := bigA 2500, start_hour := 9, start_min := 0,
         duration_min := 30, is_past := false },
       { summary := bigA 2500, start_hour := 10, start_min := 0,
         duration_min := 30, is_past := false },
       { summary := bigA 2500, start_hour := 11, start_min := 0,
         duration_min := 30, is_past := false },
       { summary := bigA 2500, start_hour := 12, start_min := 0,
         duration_min := 30, is_past := false }]
    minutes_until_next_original := some 40
    next_title := some "standup"
    next_time_str := some "9:00 AM"
    last_api_sync := some (2026, 1, 5, 8, 55)
    last_ntp_sync := some (2026, 1, 5, 8, 55)
    magic := none }

/-- The four-event state really is oversized (its summaries alone are 10000
bytes), proved symbolically via `bigA_length`. -/
theorem fourEvent_gt : 8000 < serializedLen (withMagic fourEventCache) := by
  simp only [withMagic, fourEventCache, serializedLen, jsonKeyLen, jsonStrLen,
    jsonOptIntLen, jsonOptStrLen, jsonSyncLen, jsonListLen, jsonEventLen, jsonBoolLen,
    jsonIntLen, List.map, bigA_length]
  decide

/-- C4 counterexample: an oversized state (one 9000-byte event, so the
truncation branch cannot shrink it) saved into an empty store is abandoned,
and `load(save(state))` is `none` — treated as absent, contradicting the
claim that every oversized state round-trips to a valid record of at most
three events. -/
theorem cache_roundtrip_counterexample :
    8000 < serializedLen { oversizedCache with magic := some CACHE_MAGIC }
    ∧ load_from_rtc_memory (save_to_rtc_memory oversizedCache ⟨none⟩).2.2 = none := by
  refine ⟨oversized_gt, ?_⟩
  rw [save_of_oversized_short oversizedCache ⟨none⟩ oversized_gt (by decide)]
  rfl

/-- C4 (amended): `load(save(state))` returns the saved state (the input
with the schema tag set) whenever its serialized form fits the 8000-byte
capacity; for an oversized state whose truncated form fits, it returns the
truncated state, which has at most 3 events and a valid schema tag; if even
the truncated form is oversized the write is abandoned and the store — and
hence what `load` returns — is unchanged (in particular an empty store
still loads as absent). -/
theorem cache_roundtrip_amended (s : CacheData) (st : RtcStore) :
    load_from_rtc_memory (save_to_rtc_memory s st).2.2 =
      (if serializedLen (withMagic s) ≤ 8000 then some (withMagic s)
       else if serializedLen (truncMagic s) ≤ 8000 then some (truncMagic s)
       else load_from_rtc_memory st)
    ∧ (truncMagic s).events.length ≤ 3
    ∧ (truncMagic s).magic = some CACHE_MAGIC := by
  have hmagicW : (withMagic s).magic = some CACHE_MAGIC := rfl
  have hmagicT : (truncMagic s).magic = some CACHE_MAGIC := rfl
  refine ⟨?_, ?_, rfl⟩
  · by_cases h1 : serializedLen (withMagic s) ≤ 8000
    · rw [save_of_fits s st h1]
      simp [load_from_rtc_memory, hmagicW, h1]
    · by_cases h2 : 3 < s.events.length
      · by_cases h3 : serializedLen (truncMagic s) ≤ 8000
        · rw [save_of_trunc_fits s st (by omega) h2 h3]
          simp [load_from_rtc_memory, hmagicT, h1, h3]
        · rw [save_of_trunc_oversized s st (by omega) h2 (by omega)]
          simp [h1, h3]
      · have hshort : s.events.length ≤ 3 := by omega
        have heq : truncMagic s = withMagic s := truncMagic_eq_withMagic_of_short hshort
        rw [save_of_oversized_short s st (by omega) hshort, heq]
        simp [h1]
  · simp only [truncMagic, List.length_take]
    omega

/-- C5: on overflow the save truncates the event list once to its earliest
three entries and re-serializes; if the truncated form is still oversized
the write is abandoned (returns failure, prior store contents stand); and
no save — oversized or not — ever leaves the store holding a record whose
schema tag is not the valid magic number. -/
theorem save_overflow_truncate_or_abandon (d : CacheData) (st : RtcStore)
    (h1 : 8000 < serializedLen (withMagic d)) :
    (save_to_rtc_memory d st).2.1.events = d.events.take 3
    ∧ (8000 < serializedLen (truncMagic d) →
        (save_to_rtc_memory d st).1 = false ∧ (save_to_rtc_memory d st).2.2 = st)
    ∧ (∀ (e : CacheData) (s2 : RtcStore) (c : CacheData),
        ((save_to_rtc_memory e s2).2.2).mem = some c →
          s2.mem = some c ∨ c.magic = some CACHE_MAGIC) := by
  have htag : ∀ (e : CacheData) (s2 : RtcStore) (c : CacheData),
      ((save_to_rtc_memory e s2).2.2).mem = some c →
        s2.mem = some c ∨ c.magic = some CACHE_MAGIC := by
    intro e s2 c hm
    by_cases g1 : serializedLen (withMagic e) ≤ 8000
    · rw [save_of_fits e s2 g1] at hm
      right
      cases hm
      rfl
    · by_cases g2 : 3 < e.events.length
      · by_cases g3 : serializedLen (truncMagic e) ≤ 8000
        · rw [save_of_trunc_fits e s2 (by omega) g2 g3] at hm
          right
          cases hm
          rfl
        · rw [save_of_trunc_oversized e s2 (by omega) g2 (by omega)] at hm
          exact Or.inl hm
      · rw [save_of_oversized_short e s2 (by omega) (by omega)] at hm
        exact Or.inl hm
  refine ⟨?_, ?_, htag⟩
  · by_cases h2 : 3 < d.events.length
    · by_cases h3 : serializedLen (truncMagic d) ≤ 8000
      · rw [save_of_trunc_fits d st h1 h2 h3]
        rfl
      · rw [save_of_trunc_oversized d st h1 h2 (by omega)]
        rfl
    · rw [save_of_oversized_short d st h1 (by omega)]
      show d.events = d.events.take 3
      exact (List.take_of_length_le (by omega)).symm
  · intro h3
    by_cases h2 : 3 < d.events.length
    · rw [save_of_trunc_oversized d st h1 h2 h3]
      exact ⟨rfl, rfl⟩
    · rw [save_of_oversized_short d st h1 (by omega)]
      exact ⟨rfl, rfl⟩

/-- Closed witness for `save_overflow_truncate_or_abandon`: the
single-event oversized state saved into an empty store keeps its (short)
event list, fails, and leaves the store untouched. -/
theorem save_overflow_truncate_or_abandon_witness :
    (save_to_rtc_memory oversizedCache ⟨none⟩).2.1.events = oversizedCache.events.take 3
    ∧ (save_to_rtc_memory oversizedCache ⟨none⟩).1 = false
    ∧ (save_to_rtc_memory oversizedCache ⟨none⟩).2.2 = ⟨none⟩ := by
  have htr : 8000 < serializedLen (truncMagic oversizedCache) := by
    rw [truncMagic_eq_withMagic_of_short (by decide)]
    exact oversized_gt
  have h := save_overflow_truncate_or_abandon oversizedCache ⟨none⟩ oversized_gt
  exact ⟨h.1, (h.2.1 htr).1, (h.2.1 htr).2⟩

/-- C9: `save_to_rtc_memory` mutates the caller's record: it always assigns
the magic key (value 0xF0C5), truncates the caller's events list in place to
its first three entries when the serialized form exceeds 8000 bytes and the
list holds more than three events, and otherwise only the magic assignment
changes the caller's record. -/
theorem save_mutates_caller_data (d : CacheData) (st : RtcStore) :
    (save_to_rtc_memory d st).2.1.magic = some CACHE_MAGIC
    ∧ (8000 < serializedLen (withMagic d) → 3 < d.events.length →
        (save_to_rtc_memory d st).2.1.events = d.events.take 3)
    ∧ (serializedLen (withMagic d) ≤ 8000 ∨ d.events.length ≤ 3 →
        (save_to_rtc_memory d st).2.1 = withMagic d) := by
  by_cases g1 : serializedLen (withMagic d) ≤ 8000
  · rw [save_of_fits d st g1]
    exact ⟨rfl, fun hgt _ => absurd hgt (by omega), fun _ => rfl⟩
  · by_cases g2 : 3 < d.events.length
    · by_cases g3 : serializedLen (truncMagic d) ≤ 8000
      · rw [save_of_trunc_fits d st (by omega) g2 g3]
        exact ⟨rfl, fun _ _ => rfl, fun h => by
          rcases h with h | h
          · omega
          · omega⟩
      · rw [save_of_trunc_oversized d st (by omega) g2 (by omega)]
        exact ⟨rfl, fun _ _ => rfl, fun h => by
          rcases h with h | h
          · omega
          · omega⟩
    · rw [save_of_oversized_short d st (by omega) (by omega)]
      exact ⟨rfl, fun _ h => absurd h g2, fun _ => rfl⟩

/-- Closed witness for `save_mutates_caller_data`: the oversized four-event
state comes back with the magic key assigned and its events list truncated
in place to the first three entries. -/
theorem save_mutates_caller_data_witness :
    (save_to_rtc_memory fourEventCache ⟨none⟩).2.1.magic = some CACHE_MAGIC
    ∧ (save_to_rtc_memory fourEventCache ⟨none⟩).2.1.events =
        fourEventCache.events.take 3 := by
  have h := save_mutates_caller_data fourEventCache ⟨none⟩
  exact ⟨h.1, h.2.1 fourEvent_gt (by decide)⟩

/-- C6: when the full-refresh path fails (no WiFi or failed calendar
fetch), `do_api_refresh` returns failure without touching the store; with
no prior cache the cycle renders the error state and sleeps the fixed
60-second backoff; with a prior cache (and the refresh actually due) the
cycle falls back to the time-only recomputation over that cache, rendering
the normal screen, and the store is left exactly as it was. -/
theorem api_failure_fallback (cfg : Config) (env : Env) (st : RtcStore)
    (hfail : env.wifiOk = false ∨ env.fetchResult = none) :
    do_api_refresh env st = (none, st)
    ∧ (load_from_rtc_memory st = none →
        main cfg env st =
          { render := .errorScreen "Calendar sync failed"
            sleepSeconds := sleep_duration_used 60 false env.secondsAtSleep
            store := st })
    ∧ (∀ c, load_from_rtc_memory st = some c →
        need_api_refresh_calc cfg
            (wake_forces_refresh (get_wake_cause env.resetCause env.wakeReason))
            (some c) env.rtcTime.toSync = true →
        main cfg env st =
          finishCycle cfg env env.rtcTime
            (do_time_only_update c
              (if wake_forces_refresh (get_wake_cause env.resetCause env.wakeReason)
                then .fin 0
                else calculate_minutes_elapsed c.last_api_sync env.rtcTime.toSync)
              (get_world_times_from_rtc env.rtcTime).barcelona.1
              (get_world_times_from_rtc env.rtcTime).barcelona.2).2
            (do_time_only_update c
              (if wake_forces_refresh (get_wake_cause env.resetCause env.wakeReason)
                then .fin 0
                else calculate_minutes_elapsed c.last_api_sync env.rtcTime.toSync)
              (get_world_times_from_rtc env.rtcTime).barcelona.1
              (get_world_times_from_rtc env.rtcTime).barcelona.2).1
            true st)
    ∧ (∀ (rt : RtcTime) (cd : CacheData) (mun : Option Int) (b : Bool) (s2 : RtcStore),
        (finishCycle cfg env rt cd mun b s2).render =
          .screen mun cd.next_title cd.next_time_str cd.events
            (check_evening_mode cfg (get_world_times_from_rtc rt).barcelona.1 mun) b
            (get_world_times_from_rtc rt).barcelona.1
            (get_world_times_from_rtc rt).barcelona.2
        ∧ (finishCycle cfg env rt cd mun b s2).store = s2)
    ∧ sleep_duration_used 60 false env.secondsAtSleep = 60 := by
  have hapi : do_api_refresh env st = (none, st) := by
    rcases hfail with h | h <;> simp [do_api_refresh, h]
  refine ⟨hapi, ?_, ?_, fun rt cd mun b s2 => ⟨rfl, rfl⟩, rfl⟩
  · intro hload
    simp only [main, hapi, hload]
    rw [ite_self]
  · intro c hload hneed
    simp only [main, hapi, hload, hneed]
    rw [if_pos trivial]

/-- Closed witness for `api_failure_fallback`: WiFi down and an empty
store render the error state with the 60-second backoff, store untouched. -/
theorem api_failure_fallback_witness :
    main devConfig
        { resetCause := .deepsleepReset, wakeReason := .timerWake, wifiOk := false,
          fetchResult := none, rtcTime := ⟨2026, 1, 5, 10, 0, 30, 0⟩,
          rtcTimeAfterNtp := ⟨2026, 1, 5, 10, 0, 30, 0⟩, utcTime := (2026, 1, 5, 10, 0),
          secondsAtSleep := 30 } ⟨none⟩ =
      { render := .errorScreen "Calendar sync failed"
        sleepSeconds := sleep_duration_used 60 false 30
        store := ⟨none⟩ } :=
  (api_failure_fallback devConfig
    { resetCause := .deepsleepReset, wakeReason := .timerWake, wifiOk := false,
      fetchResult := none, rtcTime := ⟨2026, 1, 5, 10, 0, 30, 0⟩,
      rtcTimeAfterNtp := ⟨2026, 1, 5, 10, 0, 30, 0⟩, utcTime := (2026, 1, 5, 10, 0),
      secondsAtSleep := 30 } ⟨none⟩ (Or.inl rfl)).2.1 rfl

/-- A raw calendar event starting 14:00 with a 30 minute duration, for the
is-past boundary analysis. -/
def boundaryRaw : RawEvent :=
  { summary := "sync"
    start_time := (2026, 1, 5, 14, 0)
    end_time := (2026, 1, 5, 14, 30)
    duration_min := 30
    meeting_type := none
    location := "" }

/-- C7 counterexample: at the exact end minute (current time 14:30 for an
event 14:00+30min) the full-refresh computation (`get_todays_events`, strict
`<`) reports the event as not past, while the time-only re-annotation
(`do_time_only_update`'s loop, non-strict `>=`) reports it as past — the two
modes disagree, refuting the claimed equality at every current time. -/
theorem is_past_flag_counterexample :
    (get_todays_events [boundaryRaw] (2026, 1, 5, 14, 30)).map CEvent.is_past = [false]
    ∧ (updateEventsPast (get_todays_events [boundaryRaw] (2026, 1, 5, 14, 0))
        (14 * 60 + 30)).map CEvent.is_past = [true] := by
  constructor
  · decide
  · decide

/-- C7 (amended): for every event the time-only flag agrees with the
full-refresh flag at every current time except the single minute where the
current time-of-day equals the event's end (start + duration): there the
time-only update says past and the full refresh says not past.  The claim's
own instances (14:45 → past, 14:15 → not past under both modes) hold. -/
theorem is_past_flag_relation (r : RawEvent) (y mo dy h m prevH prevM ch cm : Int)
    (hst : r.start_time = (y, mo, dy, h, m)) :
    (updateEventsPast (get_todays_events [r] (y, mo, dy, prevH, prevM))
        (ch * 60 + cm)).map CEvent.is_past =
      (get_todays_events [r] (y, mo, dy, ch, cm)).map
        (fun e => e.is_past || decide (ch * 60 + cm = h * 60 + m + r.duration_min))
    ∧ (updateEventsPast (get_todays_events [boundaryRaw] (2026, 1, 5, 14, 0))
        (14 * 60 + 45)).map CEvent.is_past =
      (get_todays_events [boundaryRaw] (2026, 1, 5, 14, 45)).map CEvent.is_past
    ∧ (updateEventsPast (get_todays_events [boundaryRaw] (2026, 1, 5, 14, 0))
        (14 * 60 + 15)).map CEvent.is_past =
      (get_todays_events [boundaryRaw] (2026, 1, 5, 14, 15)).map CEvent.is_past := by
  refine ⟨?_, by decide, by decide⟩
  obtain ⟨sum, stt, ett, dur, mt, loc⟩ := r
  subst hst
  have hb : (decide (ch * 60 + cm ≥ h * 60 + m + dur)) =
      (decide (h * 60 + m + dur < ch * 60 + cm) ||
        decide (ch * 60 + cm = h * 60 + m + dur)) := by
    rw [← Bool.decide_or]
    exact decide_eq_decide.mpr (by omega)
  simp [get_todays_events, updateEventsPast, hb]

/-- Closed witness for `is_past_flag_relation` at the boundary event one
minute before its end. -/
theorem is_past_flag_relation_witness :
    (updateEventsPast (get_todays_events [boundaryRaw] (2026, 1, 5, 14, 0))
        (14 * 60 + 29)).map CEvent.is_past =
      (get_todays_events [boundaryRaw] (2026, 1, 5, 14, 29)).map
        (fun e => e.is_past ||
          decide ((14 : Int) * 60 + 29 = 14 * 60 + 0 + boundaryRaw.duration_min)) :=
  (is_past_flag_relation boundaryRaw 2026 1 5 14 0 14 0 14 29 rfl).1

/-- C8: in aligned (work-hours) mode, with the work-hours base interval
configured in `config.py` (60 seconds in both dev and prod), the sleep
duration used is `60 − current_seconds` whenever that is shorter than the
base interval and the full base interval otherwise; outside aligned mode
the base interval is always used unmodified. -/
theorem aligned_sleep_matches_spec (cs : Int) (hcs0 : 0 ≤ cs) (hcs : cs < 60) :
    sleep_duration_used prodConfig.TIME_UPDATE_INTERVAL true cs =
      (if 60 - cs < prodConfig.TIME_UPDATE_INTERVAL then 60 - cs
       else prodConfig.TIME_UPDATE_INTERVAL)
    ∧ sleep_duration_used devConfig.TIME_UPDATE_INTERVAL true cs =
      (if 60 - cs < devConfig.TIME_UPDATE_INTERVAL then 60 - cs
       else devConfig.TIME_UPDATE_INTERVAL)
    ∧ ∀ base : Int, sleep_duration_used base false cs = base := by
  refine ⟨?_, ?_, fun base => rfl⟩ <;>
  · simp only [sleep_duration_used, calculate_seconds_until_next_minute,
      prodConfig, devConfig]
    split_ifs <;> omega

/-- Closed witness for `aligned_sleep_matches_spec` at 17 seconds past the
minute. -/
theorem aligned_sleep_matches_spec_witness :
    sleep_duration_used prodConfig.TIME_UPDATE_INTERVAL true 17 =
      (if (60 : Int) - 17 < prodConfig.TIME_UPDATE_INTERVAL then 60 - 17
       else prodConfig.TIME_UPDATE_INTERVAL)
    ∧ sleep_duration_used 3600 false 17 = 3600 :=
  ⟨(aligned_sleep_matches_spec 17 (by decide) (by decide)).1,
   (aligned_sleep_matches_spec 17 (by decide) (by decide)).2.2 3600⟩

/-- C10: on the same calendar day with the current time earlier than the
last sync (clock set backward), `calculate_minutes_elapsed` returns a
strictly negative number (no flooring at zero), and the derived countdown
`max(0, original − elapsed)` then strictly exceeds the stored original. -/
theorem negative_elapsed_countdown (c : CacheData) (ly lm ld lh lmin ch cmin o : Int)
    (hsync : c.last_api_sync = some (ly, lm, ld, lh, lmin))
    (horig : c.minutes_until_next_original = some o)
    (hlt : ch * 60 + cmin < lh * 60 + lmin) :
    calculate_minutes_elapsed c.last_api_sync (ly, lm, ld, ch, cmin) =
      .fin ((ch * 60 + cmin) - (lh * 60 + lmin))
    ∧ (ch * 60 + cmin) - (lh * 60 + lmin) < 0
    ∧ calculate_current_minutes_until_next c
        (.fin ((ch * 60 + cmin) - (lh * 60 + lmin))) =
      some (max 0 (o - ((ch * 60 + cmin) - (lh * 60 + lmin))))
    ∧ o < max 0 (o - ((ch * 60 + cmin) - (lh * 60 + lmin))) := by
  refine ⟨?_, by omega, ?_, ?_⟩
  · rw [hsync]
    simp [calculate_minutes_elapsed]
  · simp [calculate_current_minutes_until_next, horig]
  · exact lt_of_lt_of_le (by omega)
      (le_max_right 0 (o - ((ch * 60 + cmin) - (lh * 60 + lmin))))

/-- Closed witness for `negative_elapsed_countdown`: sync at 10:30, clock
reading 10:20 the same day, original countdown 40. -/
theorem negative_elapsed_countdown_witness :
    calculate_minutes_elapsed
        (sampleCache (some 40) (some (2026, 1, 5, 10, 30))).last_api_sync
        (2026, 1, 5, 10, 20) =
      .fin ((10 * 60 + 20) - (10 * 60 + 30))
    ∧ (40 : Int) < max 0 (40 - ((10 * 60 + 20) - (10 * 60 + 30))) := by
  have h := negative_elapsed_countdown (sampleCache (some 40) (some (2026, 1, 5, 10, 30)))
    2026 1 5 10 30 10 20 40 rfl rfl (by decide)
  exact ⟨h.1, h.2.2.2⟩

end FocusDisplay
